import Mathlib

/-!
Verification of the talent2 recruiting application's scoring logic.

This file shallowly embeds the scoring and integrity-flag functions of the
repository:

* `src/components/interview-session.tsx` — integrity flags, the event
  handlers that add them, and `getIntegrityScore`;
* `src/lib/ai-service.ts` — `AIService.cosineSimilarity`,
  `calculateSkillMatch`, `calculateExperienceBonus`, `calculateMatchScore`,
  and the error fallback of `analyzeIntegrityFlags`;
* `src/lib/auth-context.tsx` — `GPTOSSService.calculateMatchScore`.

Modelling conventions:

* JavaScript numbers are modelled as `ℚ` for the purely rational interview
  scoring, and as `ℝ` for the embedding arithmetic (which uses `Math.sqrt`).
* A JavaScript arithmetic result of `NaN` is modelled as `none : Option ℝ`.
  The two `NaN` sources in the embedded code are an out-of-bounds array
  access inside `reduce` (`b[i]` is `undefined` when `i ≥ b.length`, and
  `x * undefined` is `NaN`) and division `0 / 0` when both magnitudes are
  zero.  `Math.min` / `Math.max` propagate `NaN`, which `Option.map`
  reproduces.
* The Supabase tables are modelled as lookup functions
  `String → Option row`; a `none` result is the no-row outcome of
  `.single()`, which makes `calculateMatchScore` throw and hit its
  `catch` branch.
-/

namespace Talent2

/-! ## Interview session (`src/components/interview-session.tsx`) -/

/-- The `severity` field of the `IntegrityFlag` interface:
`"low" | "medium" | "high"`. -/
inductive Severity where
  | low
  | medium
  | high
deriving DecidableEq, Repr

/-- The `type` field of the `IntegrityFlag` interface:
`"paste_detected" | "tab_switch" | "unusual_timing" | "inconsistent_explanation"`. -/
inductive FlagType where
  | paste_detected
  | tab_switch
  | unusual_timing
  | inconsistent_explanation
deriving DecidableEq, Repr

/-- The `IntegrityFlag` interface.  The `timestamp : Date` field is modelled
as a natural number (milliseconds since the epoch, as produced by
`new Date()`). -/
structure IntegrityFlag where
  type : FlagType
  severity : Severity
  timestamp : ℕ
  description : String
deriving DecidableEq, Repr

/-- Source `addIntegrityFlag` updates the `integrityFlags` React state with
`setIntegrityFlags((prev) => [...prev, flag])`: the new flag is appended at
the end. -/
def addIntegrityFlag (prev : List IntegrityFlag) (flag : IntegrityFlag) :
    List IntegrityFlag :=
  prev ++ [flag]

/-- Source `getIntegrityScore`: counts the flags of each severity, forms the
penalty `high*0.3 + medium*0.15 + low*0.05` and returns
`Math.max(0, 1 - penalty)`. -/
def getIntegrityScore (integrityFlags : List IntegrityFlag) : ℚ :=
  let highFlags : ℕ := (integrityFlags.filter (fun f => f.severity = .high)).length
  let mediumFlags : ℕ := (integrityFlags.filter (fun f => f.severity = .medium)).length
  let lowFlags : ℕ := (integrityFlags.filter (fun f => f.severity = .low)).length
  let penalty : ℚ := highFlags * (3/10) + mediumFlags * (15/100) + lowFlags * (5/100)
  max 0 (1 - penalty)

/-- The `paste` listener `handlePaste`: when the event targets the code
textarea and the pasted text is longer than 50 characters, it appends a
`paste_detected` flag of severity `high` (and increments `pasteAttempts`
and shows a toast, which do not affect the flag list).  `targetIsCodeInput`
models `e.target === codeInputRef.current`, `now` models `new Date()`. -/
def handlePaste (integrityFlags : List IntegrityFlag) (targetIsCodeInput : Bool)
    (pastedText : String) (now : ℕ) : List IntegrityFlag :=
  if targetIsCodeInput then
    if pastedText.length > 50 then
      addIntegrityFlag integrityFlags
        { type := .paste_detected
          severity := .high
          timestamp := now
          description := "Large code paste detected (" ++
            toString pastedText.length ++ " characters)" }
    else integrityFlags
  else integrityFlags

/-- The `visibilitychange` listener `handleVisibilityChange`: when
`document.hidden` is true it appends a `tab_switch` flag of severity
`medium`; otherwise it only records that the tab is active again. -/
def handleVisibilityChange (integrityFlags : List IntegrityFlag)
    (documentHidden : Bool) (now : ℕ) : List IntegrityFlag :=
  if documentHidden then
    addIntegrityFlag integrityFlags
      { type := .tab_switch
        severity := .medium
        timestamp := now
        description := "Candidate switched away from interview tab" }
  else integrityFlags

/-- Source `handleCodeChange`: compares the new value's length against the current
`codeInput` state (captured before the `setCodeInput` update); a jump of
more than 100 characters appends an `unusual_timing` flag of severity
`medium`.  JavaScript's `value.length - codeInput.length` is signed, hence
the subtraction in `ℤ`. -/
def handleCodeChange (integrityFlags : List IntegrityFlag)
    (codeInput value : String) (now : ℕ) : List IntegrityFlag :=
  if (value.length : ℤ) - (codeInput.length : ℤ) > 100 then
    addIntegrityFlag integrityFlags
      { type := .unusual_timing
        severity := .medium
        timestamp := now
        description := "Sudden large code addition detected" }
  else integrityFlags

/-- Source `handleExplanationChange`: an explanation longer than 50 characters
while the current `codeInput` is shorter than 10 characters appends an
`inconsistent_explanation` flag of severity `low`. -/
def handleExplanationChange (integrityFlags : List IntegrityFlag)
    (codeInput value : String) (now : ℕ) : List IntegrityFlag :=
  if value.length > 50 ∧ codeInput.length < 10 then
    addIntegrityFlag integrityFlags
      { type := .inconsistent_explanation
        severity := .low
        timestamp := now
        description := "Explanation provided without corresponding code" }
  else integrityFlags

/-! ## AIService (`src/lib/ai-service.ts`) -/

/-- Source expression `a.reduce((sum, val, i) => sum + val * b[i], 0)`.  When `a` is longer
than `b`, the access `b[i]` yields `undefined`, `val * undefined` is `NaN`
and the whole sum is `NaN`, modelled as `none`. -/
def dotProduct : List ℝ → List ℝ → Option ℝ
  | [], _ => some 0
  | _ :: _, [] => none
  | x :: xs, y :: ys => (dotProduct xs ys).map (fun s => s + x * y)

/-- Source expression `v.reduce((sum, val) => sum + val * val, 0)`, the sum of squares under
the square root in both magnitude computations. -/
def sumSq (v : List ℝ) : ℝ :=
  (v.map (fun val => val * val)).sum

/-- Source expression `Math.sqrt(v.reduce((sum, val) => sum + val * val, 0))`, the magnitude
computed for each of the two vectors inside `cosineSimilarity`. -/
noncomputable def magnitude (v : List ℝ) : ℝ :=
  Real.sqrt (sumSq v)

/-- Source `AIService.cosineSimilarity`: `dotProduct / (magnitudeA * magnitudeB)`.
The division is unguarded; in the real-valued model a zero divisor forces a
zero dot product, so the JavaScript result there is `0 / 0 = NaN`,
modelled as `none`. -/
noncomputable def cosineSimilarity (a b : List ℝ) : Option ℝ :=
  (dotProduct a b).bind (fun dotP =>
    let magnitudeA := magnitude a
    let magnitudeB := magnitude b
    if magnitudeA * magnitudeB = 0 then none
    else some (dotP / (magnitudeA * magnitudeB)))

/-- Whether `t` is a leading segment of `s`. -/
def listStartsWith : List Char → List Char → Bool
  | _, [] => true
  | [], _ :: _ => false
  | c :: cs, d :: ds => c = d && listStartsWith cs ds

/-- Whether `t` occurs contiguously somewhere in `s`. -/
def listOccurs : List Char → List Char → Bool
  | [], t => t.isEmpty
  | c :: cs, t => listStartsWith (c :: cs) t || listOccurs cs t

/-- JavaScript `s.includes(t)`: `t` occurs as a contiguous substring of
`s`. -/
def strIncludes (s t : String) : Bool :=
  listOccurs s.data t.data

/-- A candidate skill as stored in the `candidates.skills` column; only the
`name` field is read by `calculateSkillMatch`. -/
structure Skill where
  name : String
deriving DecidableEq, Repr

/-- Source `AIService.calculateSkillMatch`: the fraction of required skills that
some candidate skill name matches, where two lowercased names match when
either contains the other.  An empty skill list or requirement list short
circuits to 0. -/
def calculateSkillMatch (candidateSkills : List Skill)
    (jobRequirements : List String) : ℚ :=
  if candidateSkills.length = 0 ∨ jobRequirements.length = 0 then 0
  else
    let candidateSkillNames := candidateSkills.map (fun s => s.name.toLower)
    let requiredSkillNames := jobRequirements.map (fun r => r.toLower)
    let matched := requiredSkillNames.filter (fun req =>
      candidateSkillNames.any (fun cand => strIncludes cand req || strIncludes req cand))
    (matched.length : ℚ) / (requiredSkillNames.length : ℚ)

/-- The leading run of decimal digits of a character list. -/
def leadingDigits : List Char → List Char
  | [] => []
  | c :: cs => if c.isDigit then c :: leadingDigits cs else []

/-- Source expression `s.match(/\d+/)?.[0]`: the first maximal run of decimal digits in the
string, if any. -/
def firstDigitRun : List Char → Option (List Char)
  | [] => none
  | c :: cs => if c.isDigit then some (c :: leadingDigits cs) else firstDigitRun cs

/-- Source `Number.parseInt` on a string of decimal digits. -/
def parseDigits (ds : List Char) : ℕ :=
  ds.foldl (fun n c => n * 10 + (c.toNat - ('0').toNat)) 0

/-- Source expression `Number.parseInt(experienceReq.match(/\d+/)?.[0] || "0")`. -/
def extractReqYears (experienceReq : String) : ℕ :=
  match firstDigitRun experienceReq.data with
  | some ds => parseDigits ds
  | none => 0

/-- Source `AIService.calculateExperienceBonus`.  `!candidateYears` is a JavaScript
falsiness test, so zero years of experience also takes the `0.5` branch.
The tier comparisons against `reqYears * 0.7` and `reqYears * 0.5` are
exact rational arithmetic. -/
def calculateExperienceBonus (candidateYears : ℕ)
    (jobRequirements : List String) : ℚ :=
  match jobRequirements.find? (fun req => strIncludes req.toLower "year") with
  | none => 1/2
  | some experienceReq =>
    if candidateYears = 0 then 1/2
    else
      let reqYears := extractReqYears experienceReq
      if (candidateYears : ℚ) ≥ (reqYears : ℚ) then 1
      else if (candidateYears : ℚ) ≥ (reqYears : ℚ) * (7/10) then 8/10
      else if (candidateYears : ℚ) ≥ (reqYears : ℚ) * (5/10) then 6/10
      else 3/10

/-- The columns `calculateMatchScore` selects from the `candidates` table. -/
structure Candidate where
  embedding : List ℝ
  skills : List Skill
  experience_years : ℕ

/-- The columns `calculateMatchScore` selects from the `jobs` table. -/
structure Job where
  embedding : List ℝ
  requirements : List String
  title : String
  description : String

/-- The weighted blend
`similarity * 0.4 + skillMatch * 0.4 + experienceBonus * 0.2` from
`AIService.calculateMatchScore`. -/
noncomputable def weightedScore (similarity skillMatch experienceBonus : ℝ) : ℝ :=
  similarity * (4/10) + skillMatch * (4/10) + experienceBonus * (2/10)

/-- Source expression `Math.min(Math.max(finalScore, 0), 1)`. -/
noncomputable def clamp01 (finalScore : ℝ) : ℝ :=
  min (max finalScore 0) 1

/-- Source `AIService.calculateMatchScore`.  The two Supabase `.single()` lookups
are modelled as lookup functions; a `none` result makes the original code
throw `"Candidate or job not found"`, which the `catch` turns into the
return value 0.  On success the score is the clamped weighted blend, with
`NaN` (`none`) propagating through `Math.min`/`Math.max`. -/
noncomputable def calculateMatchScore (candidates : String → Option Candidate)
    (jobs : String → Option Job) (candidateId jobId : String) : Option ℝ :=
  match candidates candidateId, jobs jobId with
  | some candidate, some job =>
    (cosineSimilarity candidate.embedding job.embedding).map (fun similarity =>
      let skillMatch := calculateSkillMatch candidate.skills job.requirements
      let experienceBonus :=
        calculateExperienceBonus candidate.experience_years job.requirements
      clamp01 (weightedScore similarity (skillMatch : ℝ) (experienceBonus : ℝ)))
  | _, _ => some 0

/-- The result record of `AIService.analyzeIntegrityFlags`. -/
structure IntegrityAnalysis where
  score : ℚ
  flags : List String
  recommendations : List String
deriving DecidableEq, Repr

/-- Source `AIService.analyzeIntegrityFlags`.  `parsedResponse` is `some r` when
the text-generation call succeeds and its response contains a JSON object
parsing to `r`; it is `none` both when no JSON object is found in the
response and when the call throws.  Both failure paths return the same
fallback record instead of propagating the failure. -/
def analyzeIntegrityFlags (parsedResponse : Option IntegrityAnalysis) :
    IntegrityAnalysis :=
  match parsedResponse with
  | some result => result
  | none =>
    { score := 1/2
      flags := ["Analysis failed"]
      recommendations := ["Manual review required"] }

/-! ## GPTOSSService (`src/lib/auth-context.tsx`) -/

namespace GPTOSS

/-- Source `GPTOSSService.calculateMatchScore`.  The body inlines the same dot
product and magnitudes as `AIService.cosineSimilarity` and rescales the
similarity to a 0–100 percentage.  The `Except` input models whether the
JavaScript runtime raises an exception inside the `try` block; the `catch`
branch returns 0. -/
noncomputable def calculateMatchScore
    (input : Except Unit (List ℝ × List ℝ)) : Option ℝ :=
  match input with
  | .error _ => some 0
  | .ok (jobEmbedding, candidateEmbedding) =>
    (dotProduct jobEmbedding candidateEmbedding).bind (fun dotP =>
      let magnitudeA := magnitude jobEmbedding
      let magnitudeB := magnitude candidateEmbedding
      if magnitudeA * magnitudeB = 0 then none
      else some (max 0 (min 100 ((dotP / (magnitudeA * magnitudeB) + 1) * 50))))

end GPTOSS

/-! ## Theorems about the interview-session integrity scoring -/

lemma length_filter_append_single (flags : List IntegrityFlag)
    (f : IntegrityFlag) (p : IntegrityFlag → Bool) :
    ((flags ++ [f]).filter p).length =
      (flags.filter p).length + (if p f then 1 else 0) := by
  simp only [List.filter_append, List.length_append]
  by_cases h : p f <;> simp [List.filter, h]

/-- C2: `getIntegrityScore` returns `max(0, 1 - (0.3·h + 0.15·m + 0.05·l))`
where `h`, `m`, `l` count the accumulated flags of severity high, medium
and low. -/
theorem getIntegrityScore_formula (flags : List IntegrityFlag) :
    getIntegrityScore flags =
      max 0 (1 - ((3/10) * (flags.countP (fun f => f.severity = .high) : ℚ)
        + (15/100) * (flags.countP (fun f => f.severity = .medium) : ℚ)
        + (5/100) * (flags.countP (fun f => f.severity = .low) : ℚ))) := by
  unfold getIntegrityScore
  rw [List.countP_eq_length_filter, List.countP_eq_length_filter,
    List.countP_eq_length_filter]
  ring_nf

/-- C4: appending one flag with `addIntegrityFlag` never increases the
integrity score, and the integrity score is never negative. -/
theorem getIntegrityScore_antitone_and_nonneg :
    (∀ (flags : List IntegrityFlag) (f : IntegrityFlag),
      getIntegrityScore (addIntegrityFlag flags f) ≤ getIntegrityScore flags) ∧
    (∀ flags : List IntegrityFlag, 0 ≤ getIntegrityScore flags) := by
  constructor
  · intro flags f
    unfold getIntegrityScore addIntegrityFlag
    rw [length_filter_append_single, length_filter_append_single,
      length_filter_append_single]
    apply max_le_max le_rfl
    have h1 : (0:ℚ) ≤ (if (decide (f.severity = .high)) = true then 1 else 0) := by positivity
    have h2 : (0:ℚ) ≤ (if (decide (f.severity = .medium)) = true then 1 else 0) := by positivity
    have h3 : (0:ℚ) ≤ (if (decide (f.severity = .low)) = true then 1 else 0) := by positivity
    push_cast
    linarith
  · intro flags
    exact le_max_left 0 _

/-- C6: each suspicious event appends exactly one flag of its fixed type
and severity, under exactly the condition the source checks: a paste into
the code input longer than 50 characters (high `paste_detected`), the tab
becoming hidden (medium `tab_switch`), a code edit growing the code by
more than 100 characters (medium `unusual_timing`), and an explanation
longer than 50 characters while the code input is shorter than 10
characters (low `inconsistent_explanation`). -/
theorem handlers_append_fixed_flags :
    (∀ (flags : List IntegrityFlag) (text : String) (now : ℕ), ∃ d,
      handlePaste flags true text now =
        if text.length > 50 then
          flags ++ [⟨.paste_detected, .high, now, d⟩] else flags) ∧
    (∀ (flags : List IntegrityFlag) (now : ℕ), ∃ d,
      (handleVisibilityChange flags true now =
        flags ++ [⟨.tab_switch, .medium, now, d⟩]) ∧
      handleVisibilityChange flags false now = flags) ∧
    (∀ (flags : List IntegrityFlag) (codeInput value : String) (now : ℕ), ∃ d,
      handleCodeChange flags codeInput value now =
        if (value.length : ℤ) - (codeInput.length : ℤ) > 100 then
          flags ++ [⟨.unusual_timing, .medium, now, d⟩] else flags) ∧
    (∀ (flags : List IntegrityFlag) (codeInput value : String) (now : ℕ), ∃ d,
      handleExplanationChange flags codeInput value now =
        if value.length > 50 ∧ codeInput.length < 10 then
          flags ++ [⟨.inconsistent_explanation, .low, now, d⟩] else flags) := by
  refine ⟨fun flags text now =>
      ⟨"Large code paste detected (" ++ toString text.length ++ " characters)", ?_⟩,
    fun flags now => ⟨"Candidate switched away from interview tab", ?_, ?_⟩,
    fun flags codeInput value now => ⟨"Sudden large code addition detected", ?_⟩,
    fun flags codeInput value now =>
      ⟨"Explanation provided without corresponding code", ?_⟩⟩ <;>
  simp [handlePaste, handleVisibilityChange, handleCodeChange,
    handleExplanationChange, addIntegrityFlag]

/-! ## Helper lemmas about the embedding arithmetic -/

/-- The value of the dot-product `reduce` when no out-of-bounds access
occurs. -/
def listDot (a b : List ℝ) : ℝ :=
  (List.zipWith (fun x y => x * y) a b).sum

lemma listDot_nil_right (a : List ℝ) : listDot a [] = 0 := by
  cases a <;> simp [listDot]

lemma listDot_comm : ∀ a b : List ℝ, listDot a b = listDot b a
  | [], b => by cases b <;> simp [listDot]
  | _ :: _, [] => by simp [listDot]
  | x :: xs, y :: ys => by
      simp only [listDot, List.zipWith_cons_cons, List.sum_cons]
      rw [mul_comm]
      exact congrArg _ (listDot_comm xs ys)

lemma sumSq_nonneg (v : List ℝ) : 0 ≤ sumSq v := by
  apply List.sum_nonneg
  intro x hx
  obtain ⟨y, _, rfl⟩ := List.mem_map.mp hx
  exact mul_self_nonneg y

lemma dotProduct_eq_some : ∀ (a b : List ℝ), a.length ≤ b.length →
    dotProduct a b = some (listDot a b)
  | [], b, _ => by simp [dotProduct, listDot]
  | _ :: _, [], h => by simp at h
  | x :: xs, y :: ys, h => by
      have hlen : xs.length ≤ ys.length := by simpa using h
      simp only [dotProduct, dotProduct_eq_some xs ys hlen, Option.map_some',
        listDot, List.zipWith_cons_cons, List.sum_cons]
      rw [add_comm]

lemma dotProduct_some_imp : ∀ (a b : List ℝ) (d : ℝ),
    dotProduct a b = some d → a.length ≤ b.length ∧ d = listDot a b
  | [], b, d, h => by
      simp only [dotProduct, Option.some.injEq] at h
      simp [listDot, ← h]
  | _ :: _, [], d, h => by simp [dotProduct] at h
  | x :: xs, y :: ys, d, h => by
      simp only [dotProduct, Option.map_eq_some'] at h
      obtain ⟨s, hs, rfl⟩ := h
      obtain ⟨hlen, rfl⟩ := dotProduct_some_imp xs ys s hs
      constructor
      · simpa using hlen
      · simp only [listDot, List.zipWith_cons_cons, List.sum_cons]
        rw [add_comm]

/-- Cauchy–Schwarz for lists: the square of the truncating dot product is
bounded by the product of the full sums of squares. -/
lemma listDot_sq_le : ∀ a b : List ℝ, (listDot a b) ^ 2 ≤ sumSq a * sumSq b
  | [], b => by simp [listDot, sumSq]
  | a :: as, [] => by
      simp only [listDot_nil_right, sumSq, List.map_nil, List.sum_nil, mul_zero]
      norm_num
  | x :: xs, y :: ys => by
      have h := listDot_sq_le xs ys
      have hA := sumSq_nonneg xs
      have hB := sumSq_nonneg ys
      have hcons : listDot (x :: xs) (y :: ys) = x * y + listDot xs ys := by
        simp [listDot]
      have hconsA : sumSq (x :: xs) = x * x + sumSq xs := by simp [sumSq]
      have hconsB : sumSq (y :: ys) = y * y + sumSq ys := by simp [sumSq]
      rw [hcons, hconsA, hconsB]
      rcases hA.eq_or_lt with hA0 | hA0
      · have h2 : (listDot xs ys) ^ 2 ≤ 0 := by nlinarith [sq_nonneg (listDot xs ys)]
        have hd0 : listDot xs ys = 0 :=
          sq_eq_zero_iff.mp (le_antisymm h2 (sq_nonneg _))
        rw [hd0, ← hA0, add_zero, add_zero]
        nlinarith [mul_nonneg (mul_self_nonneg x) hB]
      · nlinarith [sq_nonneg (x * listDot xs ys - sumSq xs * y),
          mul_nonneg (mul_self_nonneg x) (sub_nonneg.mpr h),
          mul_nonneg hA hB, mul_nonneg (le_of_lt hA0) (sub_nonneg.mpr h)]

lemma magnitude_ne_zero_pos {a : List ℝ} (h : magnitude a ≠ 0) : 0 < sumSq a :=
  lt_of_not_le fun hle => h (Real.sqrt_eq_zero'.mpr hle)

/-! ## Theorems about the cosine similarity -/

/-- C3 (as stated) is false: on the all-zero vectors the unguarded division
is `0 / 0 = NaN`, so `cosineSimilarity` does not return a real value in
`[-1, 1]` there. -/
theorem cosineSimilarity_zero_vector_not_bounded :
    ¬ ∃ v : ℝ, cosineSimilarity [0] [0] = some v ∧ -1 ≤ v ∧ v ≤ 1 := by
  have hnone : cosineSimilarity [(0:ℝ)] [0] = none := by
    simp [cosineSimilarity, dotProduct, magnitude, sumSq]
  rintro ⟨v, hv, -⟩
  rw [hnone] at hv
  exact Option.noConfusion hv

/-- C3 (amended): `cosineSimilarity` is symmetric on equal-length vectors,
and whenever it returns a real value (rather than the `NaN` of the
zero-magnitude case) that value lies in `[-1, 1]`. -/
theorem cosineSimilarity_symm_and_bounded :
    (∀ a b : List ℝ, a.length = b.length →
      cosineSimilarity a b = cosineSimilarity b a) ∧
    (∀ (a b : List ℝ) (v : ℝ), cosineSimilarity a b = some v →
      -1 ≤ v ∧ v ≤ 1) := by
  constructor
  · intro a b hlen
    unfold cosineSimilarity
    rw [dotProduct_eq_some a b (le_of_eq hlen),
      dotProduct_eq_some b a (le_of_eq hlen.symm), listDot_comm b a]
    dsimp only [Option.bind_some]
    rw [mul_comm (magnitude b) (magnitude a)]
  · intro a b v h
    unfold cosineSimilarity at h
    rw [Option.bind_eq_some] at h
    obtain ⟨d, hd, hv⟩ := h
    dsimp only at hv
    by_cases hmag : magnitude a * magnitude b = 0
    · rw [if_pos hmag] at hv
      exact Option.noConfusion hv
    · rw [if_neg hmag] at hv
      obtain ⟨hmagA, hmagB⟩ := mul_ne_zero_iff.mp hmag
      have hSA : 0 < sumSq a := magnitude_ne_zero_pos hmagA
      have hSB : 0 < sumSq b := magnitude_ne_zero_pos hmagB
      have hprod : 0 < sumSq a * sumSq b := mul_pos hSA hSB
      have hsq : (magnitude a * magnitude b) ^ 2 = sumSq a * sumSq b := by
        rw [mul_pow]
        unfold magnitude
        rw [Real.sq_sqrt (le_of_lt hSA), Real.sq_sqrt (le_of_lt hSB)]
      have hCS : d ^ 2 ≤ sumSq a * sumSq b := by
        rw [(dotProduct_some_imp a b d hd).2]
        exact listDot_sq_le a b
      have hv2 : v ^ 2 ≤ 1 := by
        have hval : v = d / (magnitude a * magnitude b) := (Option.some.inj hv).symm
        rw [hval, div_pow, hsq]
        exact (div_le_one hprod).mpr hCS
      exact abs_le.mp ((sq_le_one_iff_abs_le_one v).mp hv2)

/-- Witness for `cosineSimilarity_symm_and_bounded` at concrete inputs. -/
theorem cosineSimilarity_symm_and_bounded_witness :
    cosineSimilarity [(1:ℝ), 2] [(3:ℝ), 4] = cosineSimilarity [(3:ℝ), 4] [(1:ℝ), 2] ∧
    (-1 ≤ (1:ℝ) ∧ (1:ℝ) ≤ 1) :=
  ⟨cosineSimilarity_symm_and_bounded.1 _ _ rfl,
   cosineSimilarity_symm_and_bounded.2 [1] [1] 1 (by
     norm_num [cosineSimilarity, dotProduct, magnitude, sumSq, Real.sqrt_one])⟩

/-! ## Theorems about the blended match score -/

lemma clamp01_mono {x y : ℝ} (h : x ≤ y) : clamp01 x ≤ clamp01 y :=
  min_le_min (max_le_max h le_rfl) le_rfl

/-- C1: when both database lookups succeed and the cosine similarity is a
real value `v`, `calculateMatchScore` returns
`0.4·v + 0.4·skillMatch + 0.2·experienceBonus` clamped to `[0, 1]`. -/
theorem calculateMatchScore_success_formula :
    ∀ (candidates : String → Option Candidate) (jobs : String → Option Job)
      (candidateId jobId : String) (c : Candidate) (j : Job) (v : ℝ),
      candidates candidateId = some c → jobs jobId = some j →
      cosineSimilarity c.embedding j.embedding = some v →
      calculateMatchScore candidates jobs candidateId jobId =
        some (min (max ((4/10) * v
          + (4/10) * ((calculateSkillMatch c.skills j.requirements : ℚ) : ℝ)
          + (2/10) * ((calculateExperienceBonus c.experience_years j.requirements : ℚ) : ℝ)) 0) 1) := by
  intro candidates jobs candidateId jobId c j v hc hj hcos
  simp only [calculateMatchScore, hc, hj, hcos, Option.map_some', Option.some.injEq]
  unfold clamp01 weightedScore
  ring_nf

/-- Witness for `calculateMatchScore_success_formula` at a concrete
database. -/
theorem calculateMatchScore_success_formula_witness :
    calculateMatchScore (fun _ => some ⟨[1], [], 0⟩)
        (fun _ => some ⟨[1], [], "", ""⟩) "cand-1" "job-1" =
      some (min (max ((4/10) * (1:ℝ)
        + (4/10) * ((calculateSkillMatch [] [] : ℚ) : ℝ)
        + (2/10) * ((calculateExperienceBonus 0 [] : ℚ) : ℝ)) 0) 1) :=
  calculateMatchScore_success_formula (fun _ => some ⟨[1], [], 0⟩)
    (fun _ => some ⟨[1], [], "", ""⟩) "cand-1" "job-1" ⟨[1], [], 0⟩
    ⟨[1], [], "", ""⟩ 1 rfl rfl (by
    norm_num [cosineSimilarity, dotProduct, magnitude, sumSq, Real.sqrt_one])

/-- C5: the clamped weighted blend of `calculateMatchScore` is monotone in
each of similarity, skill match, and experience bonus, the other two
inputs held fixed. -/
theorem blend_monotone_in_each_signal :
    ∀ s s' k k' e e' : ℝ,
      (s ≤ s' → clamp01 (weightedScore s k e) ≤ clamp01 (weightedScore s' k e)) ∧
      (k ≤ k' → clamp01 (weightedScore s k e) ≤ clamp01 (weightedScore s k' e)) ∧
      (e ≤ e' → clamp01 (weightedScore s k e) ≤ clamp01 (weightedScore s k e')) := by
  intro s s' k k' e e'
  refine ⟨fun h => clamp01_mono ?_, fun h => clamp01_mono ?_, fun h => clamp01_mono ?_⟩ <;>
    · unfold weightedScore
      nlinarith
/-- Witness for `blend_monotone_in_each_signal` at concrete inputs. -/
theorem blend_monotone_in_each_signal_witness :
    (clamp01 (weightedScore 0 0 0) ≤ clamp01 (weightedScore 1 0 0)) ∧
    (clamp01 (weightedScore 0 0 0) ≤ clamp01 (weightedScore 0 1 0)) ∧
    (clamp01 (weightedScore 0 0 0) ≤ clamp01 (weightedScore 0 0 1)) :=
  ⟨(blend_monotone_in_each_signal 0 1 0 0 0 0).1 (by norm_num),
   (blend_monotone_in_each_signal 0 0 0 1 0 0).2.1 (by norm_num),
   (blend_monotone_in_each_signal 0 0 0 0 0 1).2.2 (by norm_num)⟩

/-- C8: the division in `cosineSimilarity` is unguarded: on all-zero
embeddings the divisor is zero, the similarity is `NaN` (`none`), the
`NaN` passes through the `Math.min`/`Math.max` clamp, and the match score
returned on the success path is not a number in `[0, 1]`. -/
theorem calculateMatchScore_nan_on_zero_embeddings :
    cosineSimilarity [(0:ℝ)] [0] = none ∧
    calculateMatchScore (fun _ => some ⟨[0], [], 0⟩)
      (fun _ => some ⟨[0], [], "", ""⟩) "cand-1" "job-1" = none := by
  constructor
  · simp [cosineSimilarity, dotProduct, magnitude, sumSq]
  · simp [calculateMatchScore, cosineSimilarity, dotProduct, magnitude, sumSq]

/-- C9: whenever either `.single()` lookup produces no row, the thrown
`"Candidate or job not found"` error is caught and `calculateMatchScore`
returns 0. -/
theorem calculateMatchScore_zero_on_lookup_failure :
    ∀ (candidates : String → Option Candidate) (jobs : String → Option Job)
      (candidateId jobId : String),
      candidates candidateId = none ∨ jobs jobId = none →
      calculateMatchScore candidates jobs candidateId jobId = some 0 := by
  intro candidates jobs candidateId jobId h
  rcases h with h | h
  · rcases hj : jobs jobId with _ | j <;>
      simp [calculateMatchScore, h, hj]
  · rcases hc : candidates candidateId with _ | c <;>
      simp [calculateMatchScore, h, hc]

/-- Witness for `calculateMatchScore_zero_on_lookup_failure` on an empty
database. -/
theorem calculateMatchScore_zero_on_lookup_failure_witness :
    calculateMatchScore (fun _ => none) (fun _ => none) "cand-1" "job-1" = some 0 :=
  calculateMatchScore_zero_on_lookup_failure _ _ "cand-1" "job-1" (Or.inl rfl)

/-- C7 (as stated) is false: failing external operations do not merely log
and not complete — they substitute default results.  On a failed lookup
`calculateMatchScore` completes with the score 0, a failed integrity
analysis completes with a fixed fallback record, and a failed
`GPTOSSService.calculateMatchScore` completes with 0. -/
theorem failure_substitutes_defaults_counterexample :
    calculateMatchScore (fun _ => none) (fun _ => none) "cand-2" "job-2" = some 0 ∧
    analyzeIntegrityFlags none =
      { score := 1/2
        flags := ["Analysis failed"]
        recommendations := ["Manual review required"] } ∧
    GPTOSS.calculateMatchScore (.error ()) = some 0 := by
  refine ⟨?_, rfl, rfl⟩
  simp [calculateMatchScore]

/-- C7 (amended): failures are caught rather than retried or propagated,
but each failing operation substitutes a default result: 0 for both
match-score computations and a fixed fallback analysis for
`analyzeIntegrityFlags`. -/
theorem failure_paths_return_defaults :
    (∀ (candidates : String → Option Candidate) (jobs : String → Option Job)
      (candidateId jobId : String),
      candidates candidateId = none ∨ jobs jobId = none →
      calculateMatchScore candidates jobs candidateId jobId = some 0) ∧
    (analyzeIntegrityFlags none =
      { score := 1/2
        flags := ["Analysis failed"]
        recommendations := ["Manual review required"] }) ∧
    (∀ e : Unit, GPTOSS.calculateMatchScore (.error e) = some 0) := by
  refine ⟨?_, rfl, fun e => rfl⟩
  intro candidates jobs candidateId jobId h
  rcases h with h | h
  · rcases hj : jobs jobId with _ | j <;>
      simp [calculateMatchScore, h, hj]
  · rcases hc : candidates candidateId with _ | c <;>
      simp [calculateMatchScore, h, hc]

/-- Witness for `failure_paths_return_defaults` at a concrete failing
lookup. -/
theorem failure_paths_return_defaults_witness :
    calculateMatchScore (fun _ => some ⟨[1], [], 0⟩) (fun _ => none)
      "cand-3" "job-3" = some 0 :=
  failure_paths_return_defaults.1 _ _ "cand-3" "job-3" (Or.inr rfl)

/-- C10: on equal-length embeddings with nonzero magnitudes,
`GPTOSSService.calculateMatchScore` returns
`max(0, min(100, (similarity + 1)·50))` — a 0–100 percentage, unlike the
`[0, 1]` score of `AIService.calculateMatchScore` — and it returns 0 when
an exception is raised inside its `try` block. -/
theorem gptoss_matchScore_percentage :
    (∀ (jobEmbedding candidateEmbedding : List ℝ),
      jobEmbedding.length = candidateEmbedding.length →
      magnitude jobEmbedding ≠ 0 → magnitude candidateEmbedding ≠ 0 →
      GPTOSS.calculateMatchScore (.ok (jobEmbedding, candidateEmbedding)) =
        some (max 0 (min 100
          ((listDot jobEmbedding candidateEmbedding /
            (magnitude jobEmbedding * magnitude candidateEmbedding) + 1) * 50)))) ∧
    (∀ e : Unit, GPTOSS.calculateMatchScore (.error e) = some 0) := by
  constructor
  · intro jobEmbedding candidateEmbedding hlen hA hB
    simp only [GPTOSS.calculateMatchScore]
    rw [dotProduct_eq_some _ _ (le_of_eq hlen), Option.some_bind']
    rw [if_neg (mul_ne_zero hA hB)]
  · intro e
    rfl

/-- Witness for `gptoss_matchScore_percentage` at concrete embeddings. -/
theorem gptoss_matchScore_percentage_witness :
    GPTOSS.calculateMatchScore (.ok ([(1:ℝ)], [(1:ℝ)])) =
      some (max 0 (min 100
        ((listDot [(1:ℝ)] [(1:ℝ)] / (magnitude [(1:ℝ)] * magnitude [(1:ℝ)]) + 1) * 50))) ∧
    GPTOSS.calculateMatchScore (.error ()) = some 0 :=
  ⟨gptoss_matchScore_percentage.1 [1] [1] rfl
      (by norm_num [magnitude, sumSq, Real.sqrt_one])
      (by norm_num [magnitude, sumSq, Real.sqrt_one]),
   gptoss_matchScore_percentage.2 ()⟩

end Talent2
